import Mathlib

/-!
Verification of the myfee multi-tenant school fee management application.

The development shallowly embeds the parts of the repository that the
verified properties are about:

* the database schema and its row constraints, triggers and row-level
  security policies (supabase/migrations/*.sql),
* the subscription read path (src/hooks/useSubscription.ts),
* the billing workflow (src/pages/AdminDashboard.tsx, the billing pages,
  and the M-PESA webhook callback edge function),
* student creation with its capacity check (src/pages/Students.tsx).

Tables are lists of records, timestamps are integers (milliseconds, as in
JS `Date.getTime()`), and ids are natural numbers standing for UUIDs.
-/

namespace MyFee

/-- Timestamps in milliseconds since the epoch, as in JS `Date.getTime()`
and Postgres `TIMESTAMP WITH TIME ZONE` (up to the encoding). -/
abbrev Time := Int

def msPerDay : Int := 86400000

/-- JS `d.setDate(d.getDate() + n)`: adds `n` calendar days. -/
def addDaysJs (n : Int) (t : Time) : Time := t + n * msPerDay

/-- JS `d.setMonth(d.getMonth() + n)`: calendar-month addition.  A calendar
month is modelled at 30-day granularity; no property verified below depends
on the exact calendar length of a month. -/
def addMonthsJs (n : Int) (t : Time) : Time := t + n * 30 * msPerDay

/-- Row of `public.schools` (migration 20251201042354, plus
`monthly_target` added in the later migration). -/
structure School where
  id : Nat
  school_name : String
  school_email : Option String
  school_phone : Option String
  school_address : Option String
  trial_start : Time
  trial_end : Time
  subscription_status : String
  plan_type : String
  max_students : Int
  next_payment_date : Option Time
  last_payment_date : Option Time
  monthly_target : Int
  created_at : Time
  updated_at : Time
deriving Repr, DecidableEq

/-- Row of `public.admin_profiles`. -/
structure AdminProfile where
  id : Nat
  email : String
  full_name : String
  school_id : Option Nat
  created_at : Time
  updated_at : Time
deriving Repr, DecidableEq

/-- Row of `public.user_roles`; `role` ranges over the `app_role` enum
values `admin` and `super_admin`. -/
structure UserRole where
  id : Nat
  user_id : Nat
  role : String
deriving Repr, DecidableEq

/-- Row of `public.students` (with the columns added by the multi-tenancy
migration). `total_fee` is nullable with default 0. -/
structure Student where
  id : Nat
  admission_no : String
  full_name : String
  class_id : Option Nat
  parent_contact : Option String
  parent_name : Option String
  total_fee : Option Int
  school_id : Option Nat
  created_at : Time
  updated_at : Time
deriving Repr, DecidableEq

/-- Row of `public.fee_structures`. -/
structure FeeStructure where
  id : Nat
  class_name : String
  fee_amount : Int
  description : Option String
  school_id : Option Nat
  created_at : Time
  updated_at : Time
deriving Repr, DecidableEq

/-- Row of `public.payments`. -/
structure Payment where
  id : Nat
  student_id : Nat
  amount : Int
  payment_date : Time
  payment_method : String
  receipt_number : Option String
  notes : Option String
  school_id : Option Nat
  created_at : Time
deriving Repr, DecidableEq

/-- Row of `public.billing` (with the `status` column added by the later
migration, default `pending`).  `school_id` and `amount` are `NOT NULL`
in the schema; they are `Option` here so that the insert-time `NOT NULL`
checks can be modelled (see `billingRowOk`). -/
structure Billing where
  id : Nat
  school_id : Option Nat
  amount : Option Int
  plan_type : String
  payment_method : String
  transaction_id : Option String
  expiry_date : Option Time
  created_at : Time
  status : String
deriving Repr, DecidableEq

/-- The database: one list per table, plus the global `receipt_sequence`
(`CREATE SEQUENCE IF NOT EXISTS receipt_sequence START 1`), stored as the
last value handed out (0 when fresh). -/
structure Db where
  schools : List School
  admin_profiles : List AdminProfile
  user_roles : List UserRole
  students : List Student
  fee_structures : List FeeStructure
  payments : List Payment
  billing : List Billing
  receipt_sequence : Nat
deriving Repr, DecidableEq

/-- SQL equality on nullable values: `NULL = x` is never true. -/
def sqlEq {α : Type} [BEq α] : Option α → Option α → Bool
  | some a, some b => a == b
  | _, _ => false

/-- `public.has_role(_user_id, _role)`: true iff a matching row exists in
`public.user_roles`. -/
def has_role (db : Db) (uid : Nat) (r : String) : Bool :=
  db.user_roles.any fun ur => ur.user_id == uid && ur.role == r

/-- `public.get_user_school_id(_user_id)`: the `school_id` of the
principal's `admin_profiles` row, `NULL` when absent. -/
def get_user_school_id (db : Db) (uid : Nat) : Option Nat :=
  match db.admin_profiles.find? (fun p => p.id == uid) with
  | some p => p.school_id
  | none => none

/-- The `CHECK` constraints of `public.schools`:
`subscription_status IN ('trial','active','expired')` and
`plan_type IN ('small','medium','large')`. -/
def schoolRowOk (s : School) : Bool :=
  (s.subscription_status == "trial" || s.subscription_status == "active"
    || s.subscription_status == "expired")
  && (s.plan_type == "small" || s.plan_type == "medium" || s.plan_type == "large")

/-- The `NOT NULL` and `CHECK` constraints of `public.billing`:
`school_id NOT NULL`, `amount NOT NULL`,
`plan_type IN ('monthly','yearly')` and
`status IN ('pending','approved','rejected')`. -/
def billingRowOk (b : Billing) : Bool :=
  b.school_id.isSome && b.amount.isSome
  && (b.plan_type == "monthly" || b.plan_type == "yearly")
  && (b.status == "pending" || b.status == "approved" || b.status == "rejected")

inductive DbError where
  | uniqueViolation
  | checkViolation
deriving Repr, DecidableEq

/-- Trigger function `public.update_student_fee` (BEFORE INSERT OR UPDATE
OF class_id ON students): when `NEW.class_id` is not null, `total_fee` is
overwritten with the referenced fee structure's `fee_amount` (`NULL` when
the referenced row does not exist, as `SELECT INTO` leaves the variable
null). -/
def update_student_fee (db : Db) (s : Student) : Student :=
  match s.class_id with
  | some cid =>
    { s with total_fee := (db.fee_structures.find? (fun f => f.id == cid)).map (·.fee_amount) }
  | none => s

/-- Decimal digits, most significant first, with an explicit fuel bound
(any fuel greater than the number suffices); structural recursion on the
fuel keeps concrete values kernel-reducible. -/
def natCharsF : Nat → Nat → List Char
  | 0, _ => []
  | fuel + 1, n =>
    if n < 10 then [Nat.digitChar n]
    else natCharsF fuel (n / 10) ++ [Nat.digitChar (n % 10)]

/-- Decimal digits of a natural number, most significant first, as
characters (the embedding of Postgres `::TEXT` on a sequence value). -/
def natChars (n : Nat) : List Char := natCharsF (n + 1) n

def natText (n : Nat) : String := String.mk (natChars n)

/-- Postgres `LPAD(s, 6, '0')`: pads on the left to 6 characters, and
truncates to the leftmost 6 characters when the input is longer. -/
def lpad6 (s : List Char) : List Char :=
  if s.length < 6 then List.replicate (6 - s.length) '0' ++ s else s.take 6

/-- The receipt number built by the `generate_receipt_number` trigger:
`'RCP-' || EXTRACT(YEAR FROM NOW()) || '-' || LPAD(nextval::TEXT, 6, '0')`. -/
def receipt_number_string (year : Nat) (seqVal : Nat) : String :=
  String.mk ("RCP-".data ++ natChars year ++ "-".data ++ lpad6 (natChars seqVal))

/-- INSERT into `public.payments`: the BEFORE INSERT trigger
`generate_receipt_number` fills a null `receipt_number` from the global
`receipt_sequence`, then the `UNIQUE` constraint on `receipt_number` is
checked (SQL `UNIQUE` treats nulls as distinct).  `year` is
`EXTRACT(YEAR FROM NOW())` at insertion time. -/
def dbInsertPayment (db : Db) (year : Nat) (p : Payment) : Except DbError Db :=
  let generated := receipt_number_string year (db.receipt_sequence + 1)
  let withReceipt :=
    match p.receipt_number with
    | none => ({ p with receipt_number := some generated }, db.receipt_sequence + 1)
    | some _ => (p, db.receipt_sequence)
  if db.payments.any (fun q => sqlEq q.receipt_number withReceipt.1.receipt_number) then
    .error .uniqueViolation
  else
    .ok { db with payments := db.payments ++ [withReceipt.1],
                  receipt_sequence := withReceipt.2 }

/-- UPDATE of a payment row as issued by the payment edit dialog
(`handleEditSubmit`): writes `amount`, `payment_method` and `notes` only;
no trigger runs on payment updates (`generate_receipt_number` is BEFORE
INSERT only). -/
def dbUpdatePaymentFields (db : Db) (pid : Nat) (amount : Int)
    (method : String) (notes : Option String) : Db :=
  { db with payments := db.payments.map fun q =>
      if q.id == pid then { q with amount := amount, payment_method := method, notes := notes }
      else q }

/-- INSERT into `public.students`: the BEFORE INSERT trigger
`update_student_fee` runs, then the unique index
`students_admission_no_school_unique ON students (school_id, admission_no)`
is checked (two rows conflict only when both columns are non-null-equal;
null `school_id` values are distinct). -/
def dbInsertStudent (db : Db) (s : Student) : Except DbError Db :=
  let s2 := update_student_fee db s
  if db.students.any (fun t => sqlEq t.school_id s2.school_id
      && t.admission_no == s2.admission_no) then
    .error .uniqueViolation
  else
    .ok { db with students := db.students ++ [s2] }

/-- UPDATE of one student row.  Every student UPDATE issued by the
application (`handleSubmit` in Students.tsx) lists `class_id` in its SET
clause, so the BEFORE UPDATE OF class_id trigger `update_student_fee`
always fires here; `update_students_updated_at` bumps `updated_at`.  The
composite unique index is re-checked against the other rows. -/
def dbUpdateStudent (db : Db) (sid : Nat) (upd : Student → Student)
    (now : Time) : Except DbError Db :=
  match db.students.find? (fun s => s.id == sid) with
  | none => .ok db
  | some s =>
    let s2 := { update_student_fee db (upd s) with updated_at := now }
    if db.students.any (fun t => !(t.id == sid) && sqlEq t.school_id s2.school_id
        && t.admission_no == s2.admission_no) then
      .error .uniqueViolation
    else
      .ok { db with students := db.students.map fun t => if t.id == sid then s2 else t }

/-- DELETE of one student row. -/
def dbDeleteStudent (db : Db) (sid : Nat) : Db :=
  { db with students := db.students.filter (fun s => !(s.id == sid)) }

/-- UPDATE of `fee_amount` on one `fee_structures` row (the fee structure
edit path); `update_fee_structures_updated_at` bumps `updated_at`.  No
trigger touches `students`. -/
def dbUpdateFeeAmount (db : Db) (fid : Nat) (newAmount : Int) (now : Time) : Db :=
  { db with fee_structures := db.fee_structures.map fun f =>
      if f.id == fid then { f with fee_amount := newAmount, updated_at := now } else f }

/-- UPDATE on `public.schools`: the rows matching `pred` are rewritten by
`upd`; `update_schools_updated_at` bumps `updated_at` on each updated row;
the `CHECK` constraints are evaluated on every updated row and a violation
fails the whole statement. -/
def dbUpdateSchools (db : Db) (pred : School → Bool) (upd : School → School)
    (now : Time) : Except DbError Db :=
  if db.schools.all (fun s => !pred s || schoolRowOk { upd s with updated_at := now }) then
    .ok { db with schools := db.schools.map fun s =>
            if pred s then { upd s with updated_at := now } else s }
  else .error .checkViolation

/-- INSERT into `public.billing`, checking its `NOT NULL` and `CHECK`
constraints. -/
def dbInsertBilling (db : Db) (b : Billing) : Except DbError Db :=
  if billingRowOk b then .ok { db with billing := db.billing ++ [b] }
  else .error .checkViolation

/-- UPDATE on `public.billing` (no `updated_at` column on this table);
the `CHECK` constraints are evaluated on every updated row. -/
def dbUpdateBilling (db : Db) (pred : Billing → Bool) (upd : Billing → Billing) :
    Except DbError Db :=
  if db.billing.all (fun b => !pred b || billingRowOk (upd b)) then
    .ok { db with billing := db.billing.map fun b => if pred b then upd b else b }
  else .error .checkViolation

/-- The final row-level security policy on `public.students` (after the
multi-tenancy migration dropped and recreated all four): every operation
requires `school_id = get_user_school_id(auth.uid())`. -/
def students_rls (db : Db) (uid : Nat) (s : Student) : Bool :=
  sqlEq s.school_id (get_user_school_id db uid)

/-- The final row-level security policy on `public.fee_structures`:
`school_id = get_user_school_id(auth.uid())` for all four operations. -/
def fee_structures_rls (db : Db) (uid : Nat) (f : FeeStructure) : Bool :=
  sqlEq f.school_id (get_user_school_id db uid)

/-- The final row-level security policy on `public.payments`:
`school_id = get_user_school_id(auth.uid())` for all four operations. -/
def payments_rls (db : Db) (uid : Nat) (p : Payment) : Bool :=
  sqlEq p.school_id (get_user_school_id db uid)

inductive AccessError where
  | Forbidden
  | db (e : DbError)
deriving Repr, DecidableEq

/-- SELECT on `students` under row-level security: only rows passing the
policy's USING clause are returned. -/
def selectStudents (db : Db) (uid : Nat) : List Student :=
  db.students.filter (students_rls db uid)

/-- SELECT on `fee_structures` under row-level security. -/
def selectFeeStructures (db : Db) (uid : Nat) : List FeeStructure :=
  db.fee_structures.filter (fee_structures_rls db uid)

/-- SELECT on `payments` under row-level security. -/
def selectPayments (db : Db) (uid : Nat) : List Payment :=
  db.payments.filter (payments_rls db uid)

/-- INSERT on `students` under row-level security: the policy's WITH CHECK
clause must admit the new row, otherwise the operation is denied
(`Forbidden` in the spec's error taxonomy). -/
def rlsInsertStudent (db : Db) (uid : Nat) (s : Student) : Except AccessError Db :=
  if students_rls db uid s then (dbInsertStudent db s).mapError .db
  else .error .Forbidden

/-- UPDATE of one `students` row under row-level security: an operation
targeting a row the policy's USING clause does not admit is denied. -/
def rlsUpdateStudent (db : Db) (uid : Nat) (sid : Nat) (upd : Student → Student)
    (now : Time) : Except AccessError Db :=
  match db.students.find? (fun s => s.id == sid) with
  | none => .ok db
  | some s =>
    if students_rls db uid s then (dbUpdateStudent db sid upd now).mapError .db
    else .error .Forbidden

/-- DELETE of one `students` row under row-level security. -/
def rlsDeleteStudent (db : Db) (uid : Nat) (sid : Nat) : Except AccessError Db :=
  match db.students.find? (fun s => s.id == sid) with
  | none => .ok db
  | some s =>
    if students_rls db uid s then .ok (dbDeleteStudent db sid)
    else .error .Forbidden

/-- INSERT on `fee_structures` under row-level security. -/
def rlsInsertFeeStructure (db : Db) (uid : Nat) (f : FeeStructure) : Except AccessError Db :=
  if fee_structures_rls db uid f then .ok { db with fee_structures := db.fee_structures ++ [f] }
  else .error .Forbidden

/-- UPDATE of one `fee_structures` row under row-level security. -/
def rlsUpdateFeeStructure (db : Db) (uid : Nat) (fid : Nat)
    (upd : FeeStructure → FeeStructure) (now : Time) : Except AccessError Db :=
  match db.fee_structures.find? (fun f => f.id == fid) with
  | none => .ok db
  | some f =>
    if fee_structures_rls db uid f then
      .ok { db with fee_structures := db.fee_structures.map fun g =>
              if g.id == fid then { upd g with updated_at := now } else g }
    else .error .Forbidden

/-- DELETE of one `fee_structures` row under row-level security. -/
def rlsDeleteFeeStructure (db : Db) (uid : Nat) (fid : Nat) : Except AccessError Db :=
  match db.fee_structures.find? (fun f => f.id == fid) with
  | none => .ok db
  | some f =>
    if fee_structures_rls db uid f then
      .ok { db with fee_structures := db.fee_structures.filter (fun g => !(g.id == fid)) }
    else .error .Forbidden

/-- INSERT on `payments` under row-level security. -/
def rlsInsertPayment (db : Db) (uid : Nat) (year : Nat) (p : Payment) : Except AccessError Db :=
  if payments_rls db uid p then (dbInsertPayment db year p).mapError .db
  else .error .Forbidden

/-- UPDATE of one `payments` row under row-level security. -/
def rlsUpdatePayment (db : Db) (uid : Nat) (pid : Nat) (amount : Int)
    (method : String) (notes : Option String) : Except AccessError Db :=
  match db.payments.find? (fun p => p.id == pid) with
  | none => .ok db
  | some p =>
    if payments_rls db uid p then .ok (dbUpdatePaymentFields db pid amount method notes)
    else .error .Forbidden

/-- DELETE of one `payments` row under row-level security. -/
def rlsDeletePayment (db : Db) (uid : Nat) (pid : Nat) : Except AccessError Db :=
  match db.payments.find? (fun p => p.id == pid) with
  | none => .ok db
  | some p =>
    if payments_rls db uid p then
      .ok { db with payments := db.payments.filter (fun q => !(q.id == pid)) }
    else .error .Forbidden

/-- The subscription snapshot assembled by `useSubscription`'s
`checkSubscription` (src/hooks/useSubscription.ts). -/
structure SubscriptionStatus where
  status : String
  trialDaysRemaining : Int
  maxStudents : Int
  planType : String
  schoolId : Nat
  nextPaymentDate : Option Time
  expiryDate : Time
  daysUntilExpiry : Int
  showExpiryWarning : Bool
deriving Repr, DecidableEq

/-- Integer ceiling division by a positive divisor: `Math.ceil(a / b)`. -/
def cdiv (a b : Int) : Int := -((-a).fdiv b)

/-- `checkSubscription` (src/hooks/useSubscription.ts): resolves the
principal's school via its admin profile and returns a snapshot of the
school's subscription fields.  `status` is the stored
`subscription_status` column; `trialDaysRemaining` is
`max(0, floor((trial_end - now) in days))` and `daysUntilExpiry` is
`max(0, ceil((next_payment_date - now) in days))` for active schools. -/
def checkSubscription (db : Db) (uid : Nat) (now : Time) : Option SubscriptionStatus := do
  let profile ← db.admin_profiles.find? (fun p => p.id == uid)
  let sid ← profile.school_id
  let school ← db.schools.find? (fun s => s.id == sid)
  let daysRemaining := max 0 ((school.trial_end - now).fdiv msPerDay)
  let expiryData :=
    if school.subscription_status == "active" then
      match school.next_payment_date with
      | some npd =>
        let d := max 0 (cdiv (npd - now) msPerDay)
        (d, decide (d ≤ 7) && decide (0 < d))
      | none => ((0 : Int), false)
    else ((0 : Int), false)
  some {
    status := school.subscription_status
    trialDaysRemaining := daysRemaining
    maxStudents := school.max_students
    planType := school.plan_type
    schoolId := school.id
    nextPaymentDate := school.next_payment_date
    expiryDate := school.next_payment_date.getD school.trial_end
    daysUntilExpiry := expiryData.1
    showExpiryWarning := expiryData.2 }

/-- A value in the webhook's `CallbackMetadata.Item` array. -/
inductive MetaValue where
  | num (n : Int)
  | str (s : String)
deriving Repr, DecidableEq

structure CallbackItem where
  name : String
  value : MetaValue
deriving Repr, DecidableEq

/-- The `Body.stkCallback` object of the M-PESA webhook payload. -/
structure StkCallback where
  resultCode : Int
  items : List CallbackItem
deriving Repr, DecidableEq

/-- `items.find(i => i.Name === n)?.Value`. -/
def itemValue (items : List CallbackItem) (n : String) : Option MetaValue :=
  (items.find? (fun i => i.name == n)).map (·.value)

def metaInt : Option MetaValue → Option Int
  | some (.num n) => some n
  | _ => none

def metaStr : Option MetaValue → Option String
  | some (.str s) => some s
  | _ => none

/-- A metadata value used as a row id (the `AccountReference` carrying the
school id). -/
def metaId : Option MetaValue → Option Nat
  | some (.num n) => some n.toNat
  | _ => none

/-- The `mpesa-callback` edge function's handler on a parsed payload.  On
`ResultCode === 0` it extracts the amount, M-PESA receipt number and school
reference, inserts a `billing` row (with `status` defaulted to `pending`
by the schema and no duplicate-transaction check; the insert result is not
inspected), and then sets the school active with
`next_payment_date = now + 1 month` — the supabase service-role client
bypasses row-level security, so the write is modelled directly on the
tables.  On a nonzero result code nothing is written. -/
def mpesaCallback (db : Db) (newBillingId : Nat) (cb : StkCallback) (now : Time) : Db :=
  if cb.resultCode == 0 then
    let amount := metaInt (itemValue cb.items "Amount")
    let transactionId := metaStr (itemValue cb.items "MpesaReceiptNumber")
    let schoolId := metaId (itemValue cb.items "AccountReference")
    let expiryDate := addMonthsJs 1 now
    let db1 :=
      match dbInsertBilling db
        { id := newBillingId
          school_id := schoolId
          amount := amount
          plan_type := "monthly"
          payment_method := "mpesa"
          transaction_id := transactionId
          expiry_date := some expiryDate
          created_at := now
          status := "pending" } with
      | .ok d => d
      | .error _ => db
    match dbUpdateSchools db1 (fun s => sqlEq (some s.id) schoolId)
        (fun s => { s with subscription_status := "active",
                           next_payment_date := some expiryDate,
                           last_payment_date := some now }) now with
    | .ok d => d
    | .error _ => db1
  else db

/-- The plan-to-capacity lookup `maxStudentsMap` in `approveSubscription`
(AdminDashboard.tsx): `{ small: 200, medium: 500, large: 1000 }`. -/
def maxStudentsMap (planType : String) : Option Int :=
  if planType == "small" then some 200
  else if planType == "medium" then some 500
  else if planType == "large" then some 1000
  else none

/-- `approveSubscription` (AdminDashboard.tsx): marks the billing request
approved, then writes the subscription fields onto the school.  The
capacity is `maxStudentsMap[planType] || 200`; the duration is 365 days
when the plan string contains `"yearly"`, else 30 days.  The two updates
are separate statements: when the second fails the first has already been
applied.  Returns the resulting database and the error of the step that
failed, if any. -/
def approveSubscription (db : Db) (requestId schoolId : Nat) (planType : String)
    (now : Time) : Db × Option DbError :=
  let maxStudents := (maxStudentsMap planType).getD 200
  let planDuration : Int := if List.IsInfix "yearly".data planType.data then 365 else 30
  match dbUpdateBilling db (fun b => b.id == requestId)
      (fun b => { b with status := "approved" }) with
  | .error e => (db, some e)
  | .ok db1 =>
    match dbUpdateSchools db1 (fun s => s.id == schoolId)
        (fun s => { s with subscription_status := "active",
                           plan_type := planType,
                           max_students := maxStudents,
                           next_payment_date := some (addDaysJs planDuration now),
                           last_payment_date := some now }) now with
    | .error e => (db1, some e)
    | .ok db2 => (db2, none)

/-- `rejectSubscription` (AdminDashboard.tsx): sets the billing request's
`status` to `rejected`; nothing else is written. -/
def rejectSubscription (db : Db) (requestId : Nat) : Except DbError Db :=
  dbUpdateBilling db (fun b => b.id == requestId) (fun b => { b with status := "rejected" })

/-- `deactivateSubscription` (AdminDashboard.tsx) and
`handleDeactivateSchool` (SuperAdminDashboard.tsx): one UPDATE setting
`subscription_status = 'expired'` and `next_payment_date = null` on the
school row. -/
def deactivateSubscription (db : Db) (schoolId : Nat) (now : Time) : Except DbError Db :=
  dbUpdateSchools db (fun s => s.id == schoolId)
    (fun s => { s with subscription_status := "expired", next_payment_date := none }) now

/-- `requestSubscription` (manual billing page): inserts a pending billing
row whose `plan_type` is the composed key `'<size>-<period>'` built by
`handleContactAndRequest`. -/
def requestSubscription (db : Db) (newId schoolId : Nat) (planType : String)
    (amount : Int) (now : Time) : Except DbError Db :=
  dbInsertBilling db
    { id := newId
      school_id := some schoolId
      amount := some amount
      plan_type := planType
      payment_method := "manual"
      transaction_id := none
      expiry_date := none
      created_at := now
      status := "pending" }

/-- The student form of Students.tsx; empty-string selections are sent as
null (`formData.x || null`). -/
structure StudentForm where
  admission_no : String
  full_name : String
  parent_name : String
  class_id : Option Nat
  parent_contact : String
deriving Repr, DecidableEq

/-- `formData.x || null`. -/
def strOrNull (s : String) : Option String := if s == "" then none else some s

inductive SubmitError where
  | noSchoolId
  | missingFields
  | capacityExceeded
  | access (e : AccessError)
deriving Repr, DecidableEq

/-- The row Students.tsx inserts for a new student: the form fields plus
the resolved `school_id`; `total_fee` is the column default 0 (the insert
statement does not supply it) and may be overwritten by the class trigger. -/
def newStudentRecord (form : StudentForm) (sid newId : Nat) (now : Time) : Student :=
  { id := newId
    admission_no := form.admission_no
    full_name := form.full_name
    class_id := form.class_id
    parent_contact := strOrNull form.parent_contact
    parent_name := strOrNull form.parent_name
    total_fee := some 0
    school_id := some sid
    created_at := now
    updated_at := now }

/-- `handleSubmit` (Students.tsx): validates the form, performs the
capacity check — only when creating (not editing) and only once the
subscription snapshot is loaded: the creation is rejected when the
tenant's current student count already reached `subscription.maxStudents`
(surfaced as the spec's `CapacityExceeded`) — and then inserts or updates
the student through the row-level-security boundary.  `students` is the
fetched list of the tenant's students, `newId` the id generated for an
inserted row. -/
def handleSubmit (db : Db) (uid : Nat) (editingStudent : Option Student)
    (subscription : Option SubscriptionStatus) (schoolId : Option Nat)
    (students : List Student) (form : StudentForm) (newId : Nat) (now : Time) :
    Except SubmitError Db :=
  match schoolId with
  | none => .error .noSchoolId
  | some sid =>
    if form.admission_no == "" || form.full_name == "" then .error .missingFields
    else
      let capacityBlocked :=
        match editingStudent, subscription with
        | none, some sub => decide (sub.maxStudents ≤ (students.length : Int))
        | _, _ => false
      if capacityBlocked then .error .capacityExceeded
      else
        match editingStudent with
        | some st =>
          (rlsUpdateStudent db uid st.id (fun s =>
            { s with admission_no := form.admission_no
                     full_name := form.full_name
                     parent_name := strOrNull form.parent_name
                     class_id := form.class_id
                     parent_contact := strOrNull form.parent_contact }) now).mapError .access
        | none =>
          (rlsInsertStudent db uid (newStudentRecord form sid newId now)).mapError .access

/-- Sequential insertion of several payments in one year (each through
`dbInsertPayment`), stopping at the first error. -/
def dbInsertPayments (db : Db) (year : Nat) : List Payment → Except DbError Db
  | [] => .ok db
  | p :: rest =>
    match dbInsertPayment db year p with
    | .ok d => dbInsertPayments d year rest
    | .error e => .error e

/-- The receipt numbers the global sequence assigns to a batch of payments
inserted after `seq` values have already been consumed. -/
def assignReceipts (seq : Nat) (year : Nat) : List Payment → List Payment
  | [] => []
  | p :: rest =>
    { p with receipt_number := some (receipt_number_string year (seq + 1)) }
      :: assignReceipts (seq + 1) year rest

/-- Reads a decimal character string back into a number (verification
helper, used to show receipt numbers are injective in the sequence
value). -/
def parseChars (l : List Char) : Nat :=
  l.foldl (fun a c => a * 10 + (c.toNat - 48)) 0

/-- A school as created by the signup trigger: 7-day trial window, default
`small` plan with capacity 200, no payment dates. -/
def sampleSchool : School :=
  { id := 1, school_name := "My School", school_email := some "a@b.c",
    school_phone := none, school_address := none,
    trial_start := 0, trial_end := 7 * msPerDay,
    subscription_status := "trial", plan_type := "small", max_students := 200,
    next_payment_date := none, last_payment_date := none, monthly_target := 0,
    created_at := 0, updated_at := 0 }

def sampleProfile : AdminProfile :=
  { id := 1, email := "a@b.c", full_name := "Admin", school_id := some 1,
    created_at := 0, updated_at := 0 }

def sampleDb : Db :=
  { schools := [sampleSchool], admin_profiles := [sampleProfile], user_roles := [],
    students := [], fee_structures := [], payments := [], billing := [],
    receipt_sequence := 0 }

/-- A successful STK callback payload: result code 0 with amount, M-PESA
receipt number and the school reference. -/
def samplePayload : StkCallback :=
  { resultCode := 0,
    items := [ { name := "Amount", value := .num 1000 },
               { name := "MpesaReceiptNumber", value := .str "ABC123" },
               { name := "PhoneNumber", value := .num 254700000000 },
               { name := "AccountReference", value := .num 1 } ] }

/-- The state after the webhook payload is delivered once (at time 0). -/
def mpesaOnce : Db := mpesaCallback sampleDb 50 samplePayload 0

/-- The state after the identical payload is delivered a second time (at
time 1000). -/
def mpesaTwice : Db := mpesaCallback mpesaOnce 51 samplePayload 1000

/-- A schema-valid pending billing request (`plan_type` must be `monthly`
or `yearly` by the billing CHECK constraint). -/
def c4Billing : Billing :=
  { id := 9, school_id := some 1, amount := some 1000, plan_type := "monthly",
    payment_method := "manual", transaction_id := none, expiry_date := none,
    created_at := 0, status := "pending" }

def c4Db : Db := { sampleDb with billing := [c4Billing] }

def basePayment : Payment :=
  { id := 70, student_id := 100, amount := 500, payment_date := 0,
    payment_method := "Cash", receipt_number := none, notes := none,
    school_id := some 1, created_at := 0 }

/-- One payment inserted in 2025 followed by two in 2026, from a fresh
store. -/
def c5Trace : Except DbError Db := do
  let d1 ← dbInsertPayment sampleDb 2025 basePayment
  let d2 ← dbInsertPayment d1 2026 { basePayment with id := 71 }
  dbInsertPayment d2 2026 { basePayment with id := 72 }

def isoSchoolA : School := { sampleSchool with id := 10 }
def isoSchoolB : School := { sampleSchool with id := 20 }

def isoTenantAStudent : Student :=
  { id := 100, admission_no := "001", full_name := "S", class_id := none,
    parent_contact := none, parent_name := none, total_fee := some 0,
    school_id := some 10, created_at := 0, updated_at := 0 }

def isoTenantAFee : FeeStructure :=
  { id := 200, class_name := "Form 1", fee_amount := 500, description := none,
    school_id := some 10, created_at := 0, updated_at := 0 }

def isoTenantAPayment : Payment :=
  { basePayment with id := 300, school_id := some 10, receipt_number := some "RCP-2025-000001" }

/-- Principal 1 belongs to tenant 20 and holds no `super_admin` role;
tenant 10 owns one student, one fee structure and one payment. -/
def isoDb : Db :=
  { schools := [isoSchoolA, isoSchoolB],
    admin_profiles := [{ sampleProfile with id := 1, school_id := some 20 }],
    user_roles := [{ id := 1, user_id := 1, role := "admin" }],
    students := [isoTenantAStudent],
    fee_structures := [isoTenantAFee],
    payments := [isoTenantAPayment],
    billing := [], receipt_sequence := 1 }

def isoStudent : Student :=
  { id := 101, admission_no := "002", full_name := "T", class_id := none,
    parent_contact := none, parent_name := none, total_fee := some 0,
    school_id := some 10, created_at := 0, updated_at := 0 }

def capSub : SubscriptionStatus :=
  { status := "trial", trialDaysRemaining := 5, maxStudents := 2,
    planType := "small", schoolId := 1, nextPaymentDate := none,
    expiryDate := 7 * msPerDay, daysUntilExpiry := 0, showExpiryWarning := false }

def capForm : StudentForm :=
  { admission_no := "003", full_name := "New Student", parent_name := "",
    class_id := none, parent_contact := "" }

def capStudentA : Student :=
  { id := 100, admission_no := "001", full_name := "S1", class_id := none,
    parent_contact := none, parent_name := none, total_fee := some 0,
    school_id := some 1, created_at := 0, updated_at := 0 }

def capStudentB : Student := { capStudentA with id := 101, admission_no := "002" }

def feeX : FeeStructure :=
  { id := 5, class_name := "Form 1", fee_amount := 500, description := none,
    school_id := some 1, created_at := 0, updated_at := 0 }

def feeY : FeeStructure := { feeX with id := 6, class_name := "Form 2", fee_amount := 700 }

def feeStudent : Student := { capStudentA with class_id := some 5, total_fee := some 500 }

/-- A database with two fee structures and one student assigned to the
first. -/
def feeDb : Db :=
  { sampleDb with fee_structures := [feeX, feeY], students := [feeStudent] }

def admStudentT : Student := { capStudentA with school_id := some 10 }
def admDb : Db := { sampleDb with students := [admStudentT] }
def admS1 : Student := { capStudentA with id := 102, school_id := some 10 }
def admS2 : Student := { capStudentA with id := 103, school_id := some 20 }

def c10School : School :=
  { sampleSchool with subscription_status := "active",
                      next_payment_date := some (30 * msPerDay),
                      last_payment_date := some 0 }

def c10Db : Db := { sampleDb with schools := [c10School] }

lemma digitChar_toNat {d : Nat} (h : d < 10) : (Nat.digitChar d).toNat = 48 + d := by
  interval_cases d <;> decide

lemma foldl_digits_zeros (m : Nat) :
    List.foldl (fun a c => a * 10 + (c.toNat - 48)) 0 (List.replicate m '0') = 0 := by
  induction m with
  | zero => rfl
  | succ m ih => simpa [List.replicate_succ] using ih

lemma natCharsF_fuel_irrelevant :
    ∀ n f1 f2, n < f1 → n < f2 → natCharsF f1 n = natCharsF f2 n := by
  intro n
  induction n using Nat.strong_induction_on with
  | _ n ih =>
    intro f1 f2 h1 h2
    match f1, f2 with
    | g1 + 1, g2 + 1 =>
      simp only [natCharsF]
      by_cases h : n < 10
      · simp [h]
      · simp only [h, if_false]
        have hlt : n / 10 < n := Nat.div_lt_self (by omega) (by omega)
        rw [ih (n / 10) hlt g1 g2 (by omega) (by omega)]

lemma natChars_step (n : Nat) (h : ¬ n < 10) :
    natChars n = natChars (n / 10) ++ [Nat.digitChar (n % 10)] := by
  have hlt : n / 10 < n := Nat.div_lt_self (by omega) (by omega)
  show natCharsF (n + 1) n = _
  simp only [natCharsF, h, if_false]
  rw [natCharsF_fuel_irrelevant (n / 10) n (n / 10 + 1) (by omega) (by omega)]
  rfl

lemma parse_natChars (n : Nat) : parseChars (natChars n) = n := by
  induction n using Nat.strong_induction_on with
  | _ n ih =>
    by_cases h : n < 10
    · simp [natChars, natCharsF, h, parseChars, digitChar_toNat h]
    · rw [natChars_step n h]
      have hlt : n / 10 < n := Nat.div_lt_self (by omega) (by omega)
      have hmod : n % 10 < 10 := Nat.mod_lt _ (by omega)
      have ihd := ih (n / 10) hlt
      simp only [parseChars] at ihd ⊢
      rw [List.foldl_append, ihd]
      simp [digitChar_toNat hmod]
      omega

lemma natChars_length_le : ∀ n k, n < 10 ^ k → 0 < k → (natChars n).length ≤ k := by
  intro n
  induction n using Nat.strong_induction_on with
  | _ n ih =>
    intro k hk hk0
    by_cases h : n < 10
    · simp [natChars, natCharsF, h]
      omega
    · rw [natChars_step n h]
      have hk1 : 1 < k := by
        by_contra hc
        have hk1 : k = 1 := by omega
        subst hk1
        simp at hk
        omega
      have hdiv : n / 10 < 10 ^ (k - 1) := by
        have hpow : 10 ^ (k - 1) * 10 = 10 ^ k := by
          have : k - 1 + 1 = k := by omega
          calc 10 ^ (k - 1) * 10 = 10 ^ (k - 1 + 1) := by rw [pow_succ]
          _ = 10 ^ k := by rw [this]
        have := (Nat.div_lt_iff_lt_mul (by omega : 0 < 10)).2 (hpow ▸ hk)
        exact this
      have := ih (n / 10) (Nat.div_lt_self (by omega) (by omega)) (k - 1) hdiv (by omega)
      simp only [List.length_append, List.length_cons, List.length_nil]
      omega

lemma parse_lpad6 {l : List Char} (h : l.length ≤ 6) :
    parseChars (lpad6 l) = parseChars l := by
  unfold lpad6
  split
  · simp only [parseChars]
    rw [List.foldl_append, foldl_digits_zeros]
  · rename_i h2
    have : l.length = 6 := by omega
    rw [← this, List.take_length]

/-- Receipt numbers are injective in the sequence value, as long as the
value fits the six padded digits. -/
lemma receipt_number_string_inj {year a b : Nat} (ha : a ≤ 999999) (hb : b ≤ 999999)
    (h : receipt_number_string year a = receipt_number_string year b) : a = b := by
  have h1 : ("RCP-".data ++ (natChars year ++ ("-".data ++ lpad6 (natChars a)))) =
      ("RCP-".data ++ (natChars year ++ ("-".data ++ lpad6 (natChars b)))) := by
    have := congrArg String.data h
    simpa [receipt_number_string] using this
  have h2 := List.append_cancel_left h1
  have h3 := List.append_cancel_left h2
  have h4 : lpad6 (natChars a) = lpad6 (natChars b) := List.append_cancel_left h3
  have hla : (natChars a).length ≤ 6 :=
    natChars_length_le a 6 (by omega) (by omega)
  have hlb : (natChars b).length ≤ 6 :=
    natChars_length_le b 6 (by omega) (by omega)
  have : parseChars (natChars a) = parseChars (natChars b) := by
    rw [← parse_lpad6 hla, ← parse_lpad6 hlb, h4]
  rwa [parse_natChars, parse_natChars] at this

lemma mem_assignReceipts {q : Payment} :
    ∀ {ps : List Payment} {seq year : Nat}, q ∈ assignReceipts seq year ps →
      ∃ k, seq < k ∧ k ≤ seq + ps.length ∧
        q.receipt_number = some (receipt_number_string year k) := by
  intro ps
  induction ps with
  | nil => intro seq year h; simp [assignReceipts] at h
  | cons p rest ih =>
    intro seq year h
    simp only [assignReceipts, List.mem_cons] at h
    rcases h with h | h
    · exact ⟨seq + 1, by omega, by simp only [List.length_cons]; omega, by rw [h]⟩
    · obtain ⟨k, hk1, hk2, hk3⟩ := ih h
      exact ⟨k, by omega, by simp only [List.length_cons]; omega, hk3⟩

lemma assignReceipts_pairwise {year : Nat} :
    ∀ (ps : List Payment) (seq : Nat), seq + ps.length ≤ 999999 →
      (assignReceipts seq year ps).Pairwise
        (fun p q => p.receipt_number ≠ q.receipt_number) := by
  intro ps
  induction ps with
  | nil => intro seq h; simp [assignReceipts]
  | cons p rest ih =>
    intro seq hseq
    simp only [List.length_cons] at hseq
    refine List.Pairwise.cons ?_ (ih (seq + 1) (by omega))
    intro q hq hcontra
    obtain ⟨k, hk1, hk2, hk3⟩ := mem_assignReceipts hq
    simp only [hk3, Option.some.injEq] at hcontra
    have := receipt_number_string_inj (by omega) (by omega) hcontra
    omega

lemma dbInsertPayments_assign :
    ∀ (ps : List Payment) (db : Db) (year : Nat),
      (∀ p ∈ ps, p.receipt_number = none) →
      (∀ q ∈ db.payments, ∀ k, db.receipt_sequence < k →
        k ≤ db.receipt_sequence + ps.length →
        q.receipt_number ≠ some (receipt_number_string year k)) →
      db.receipt_sequence + ps.length ≤ 999999 →
      dbInsertPayments db year ps =
        .ok { db with
                payments := db.payments ++ assignReceipts db.receipt_sequence year ps,
                receipt_sequence := db.receipt_sequence + ps.length } := by
  intro ps
  induction ps with
  | nil =>
    intro db year _ _ _
    simp [dbInsertPayments, assignReceipts]
  | cons p rest ih =>
    intro db year hnone hfresh hbound
    simp only [List.length_cons] at hbound hfresh
    have hp : p.receipt_number = none := hnone p (List.mem_cons_self p rest)
    have hany : db.payments.any (fun q =>
        sqlEq q.receipt_number
          (some (receipt_number_string year (db.receipt_sequence + 1)))) = false := by
      rw [List.any_eq_false]
      intro q hq
      have hne := hfresh q hq (db.receipt_sequence + 1) (by omega) (by omega)
      cases hr : q.receipt_number with
      | none => simp [sqlEq]
      | some r =>
        rw [hr] at hne
        simp only [sqlEq, Bool.not_eq_true, beq_eq_false_iff_ne]
        intro hcontra
        exact hne (by rw [hcontra])
    have step : dbInsertPayment db year p = .ok
        { db with
            payments := db.payments ++
              [{ p with receipt_number := some (receipt_number_string year (db.receipt_sequence + 1)) }],
            receipt_sequence := db.receipt_sequence + 1 } := by
      simp [dbInsertPayment, hp, hany]
    have hrec := ih
      { db with
          payments := db.payments ++
            [{ p with receipt_number := some (receipt_number_string year (db.receipt_sequence + 1)) }],
          receipt_sequence := db.receipt_sequence + 1 } year
      (fun q hq => hnone q (List.mem_cons_of_mem p hq)) ?_ ?_
    · have goal_eq : dbInsertPayments db year (p :: rest) =
          dbInsertPayments
            { db with
                payments := db.payments ++
                  [{ p with receipt_number := some (receipt_number_string year (db.receipt_sequence + 1)) }],
                receipt_sequence := db.receipt_sequence + 1 } year rest := by
        show (match dbInsertPayment db year p with
              | .ok d => dbInsertPayments d year rest
              | .error e => .error e) = _
        rw [step]
      rw [goal_eq, hrec]
      simp [assignReceipts, List.append_assoc, Nat.add_assoc, Nat.add_comm 1 rest.length]
    · intro q hq k hk1 hk2
      simp only [List.mem_append, List.mem_singleton] at hq
      simp only at hk1 hk2
      rcases hq with hq | hq
      · exact hfresh q hq k (by omega) (by omega)
      · subst hq
        intro hcontra
        simp only [Option.some.injEq] at hcontra
        have := receipt_number_string_inj
          (show db.receipt_sequence + 1 ≤ 999999 by omega)
          (show k ≤ 999999 by omega) hcontra
        omega
    · simp only
      omega

lemma update_student_fee_school_id (db : Db) (s : Student) :
    (update_student_fee db s).school_id = s.school_id := by
  cases hc : s.class_id <;> simp [update_student_fee, hc]

lemma update_student_fee_admission_no (db : Db) (s : Student) :
    (update_student_fee db s).admission_no = s.admission_no := by
  cases hc : s.class_id <;> simp [update_student_fee, hc]

/-- C1: tenant isolation.  For a principal resolved to tenant `B` (and not
holding `super_admin`, which none of these policies consult anyway), every
SELECT on students, fee structures and payments returns no row of a
different tenant `A`; every INSERT of a row tagged `A` and every UPDATE or
DELETE targeting a row tagged `A` is denied with `Forbidden`; and each
policy admits a row exactly when its `school_id` equals the resolved
tenant — in particular only when it equals the tenant or (vacuously here)
the principal is `super_admin`. -/
theorem tenant_isolation
    (db : Db) (uid A B : Nat)
    (hB : get_user_school_id db uid = some B)
    (hAB : A ≠ B)
    (_hrole : has_role db uid "super_admin" = false) :
    (∀ s ∈ selectStudents db uid, s.school_id ≠ some A)
    ∧ (∀ f ∈ selectFeeStructures db uid, f.school_id ≠ some A)
    ∧ (∀ p ∈ selectPayments db uid, p.school_id ≠ some A)
    ∧ (∀ s : Student, students_rls db uid s = true ↔ s.school_id = some B)
    ∧ (∀ f : FeeStructure, fee_structures_rls db uid f = true ↔ f.school_id = some B)
    ∧ (∀ p : Payment, payments_rls db uid p = true ↔ p.school_id = some B)
    ∧ (∀ s : Student, s.school_id = some A →
        rlsInsertStudent db uid s = .error .Forbidden)
    ∧ (∀ f : FeeStructure, f.school_id = some A →
        rlsInsertFeeStructure db uid f = .error .Forbidden)
    ∧ (∀ (year : Nat) (p : Payment), p.school_id = some A →
        rlsInsertPayment db uid year p = .error .Forbidden)
    ∧ (∀ (sid : Nat) (s : Student),
        db.students.find? (fun t => t.id == sid) = some s → s.school_id = some A →
        (∀ upd now, rlsUpdateStudent db uid sid upd now = .error .Forbidden)
        ∧ rlsDeleteStudent db uid sid = .error .Forbidden)
    ∧ (∀ (fid : Nat) (f : FeeStructure),
        db.fee_structures.find? (fun g => g.id == fid) = some f → f.school_id = some A →
        (∀ upd now, rlsUpdateFeeStructure db uid fid upd now = .error .Forbidden)
        ∧ rlsDeleteFeeStructure db uid fid = .error .Forbidden)
    ∧ (∀ (pid : Nat) (p : Payment),
        db.payments.find? (fun q => q.id == pid) = some p → p.school_id = some A →
        (∀ amount method notes,
          rlsUpdatePayment db uid pid amount method notes = .error .Forbidden)
        ∧ rlsDeletePayment db uid pid = .error .Forbidden) := by
  have key : ∀ o : Option Nat, o = some A → sqlEq o (get_user_school_id db uid) = false := by
    intro o ho
    rw [ho, hB]
    show (A == B) = false
    exact beq_eq_false_iff_ne.2 hAB
  have iffkey : ∀ o : Option Nat, (sqlEq o (get_user_school_id db uid) = true ↔ o = some B) := by
    intro o
    rw [hB]
    cases o with
    | none => simp [sqlEq]
    | some x => simp [sqlEq]
  refine ⟨?_, ?_, ?_, ?_, ?_, ?_, ?_, ?_, ?_, ?_, ?_, ?_⟩
  · intro s hs hA
    have hmem := (List.mem_filter.1 hs).2
    unfold students_rls at hmem
    rw [key s.school_id hA] at hmem
    exact absurd hmem (by simp)
  · intro f hf hA
    have hmem := (List.mem_filter.1 hf).2
    unfold fee_structures_rls at hmem
    rw [key f.school_id hA] at hmem
    exact absurd hmem (by simp)
  · intro p hp hA
    have hmem := (List.mem_filter.1 hp).2
    unfold payments_rls at hmem
    rw [key p.school_id hA] at hmem
    exact absurd hmem (by simp)
  · intro s; exact iffkey s.school_id
  · intro f; exact iffkey f.school_id
  · intro p; exact iffkey p.school_id
  · intro s hA
    simp [rlsInsertStudent, students_rls, key s.school_id hA]
  · intro f hA
    simp [rlsInsertFeeStructure, fee_structures_rls, key f.school_id hA]
  · intro year p hA
    simp [rlsInsertPayment, payments_rls, key p.school_id hA]
  · intro sid s hfind hA
    constructor
    · intro upd now
      simp [rlsUpdateStudent, hfind, students_rls, key s.school_id hA]
    · simp [rlsDeleteStudent, hfind, students_rls, key s.school_id hA]
  · intro fid f hfind hA
    constructor
    · intro upd now
      simp [rlsUpdateFeeStructure, hfind, fee_structures_rls, key f.school_id hA]
    · simp [rlsDeleteFeeStructure, hfind, fee_structures_rls, key f.school_id hA]
  · intro pid p hfind hA
    constructor
    · intro amount method notes
      simp [rlsUpdatePayment, hfind, payments_rls, key p.school_id hA]
    · simp [rlsDeletePayment, hfind, payments_rls, key p.school_id hA]

/-- Witness for C1: in `isoDb`, principal 1 of tenant 20 sees none of
tenant 10's rows and all writes against them are Forbidden. -/
theorem tenant_isolation_witness :
    selectStudents isoDb 1 = []
    ∧ rlsInsertStudent isoDb 1 isoStudent = .error .Forbidden
    ∧ rlsUpdateStudent isoDb 1 100 (fun s => s) 0 = .error .Forbidden
    ∧ rlsDeleteStudent isoDb 1 100 = .error .Forbidden
    ∧ rlsDeleteFeeStructure isoDb 1 200 = .error .Forbidden
    ∧ rlsDeletePayment isoDb 1 300 = .error .Forbidden := by
  obtain ⟨h1, h2, h3, h4, h5, h6, h7, h8, h9, h10, h11, h12⟩ :=
    tenant_isolation isoDb 1 10 20 rfl (by decide) rfl
  refine ⟨by decide, h7 isoStudent rfl, ?_, ?_, ?_, ?_⟩
  · exact (h10 100 isoTenantAStudent rfl rfl).1 (fun s => s) 0
  · exact (h10 100 isoTenantAStudent rfl rfl).2
  · exact (h11 200 isoTenantAFee rfl rfl).2
  · exact (h12 300 isoTenantAPayment rfl rfl).2

/-- C2: the claim says reading subscription status after `trial_end`
reports `expired` through a lazy now-vs-trial_end comparison.  The code's
`checkSubscription` returns the stored `subscription_status` column
unchanged and never derives `expired` from `trial_end` (only the displayed
`trialDaysRemaining` is clamped at 0), and no other code path performs the
time-driven transition: a tenant created at 0 (trial_end = day 7) with no
billing activity still reports `trial` when read at day 8. -/
theorem trial_status_read_not_lazy :
    sampleSchool.subscription_status = "trial"
    ∧ sampleSchool.trial_end = 7 * msPerDay
    ∧ (checkSubscription sampleDb 1 (6 * msPerDay)).map (fun st => st.status) = some "trial"
    ∧ (checkSubscription sampleDb 1 (8 * msPerDay)).map (fun st => st.status) = some "trial"
    ∧ (checkSubscription sampleDb 1 (8 * msPerDay)).map (fun st => st.trialDaysRemaining)
        = some 0 := by
  refine ⟨rfl, rfl, by decide, by decide, by decide⟩

/-- C3: the claim says a second delivery of the same success webhook is a
no-op.  The callback handler has no duplicate-transaction check (and the
schema has no unique constraint on `billing.transaction_id`): delivering
the identical payload twice stores two billing rows for the same M-PESA
receipt number and rewrites `next_payment_date` on each delivery. -/
theorem duplicate_webhook_double_processed :
    (mpesaTwice.billing.filter (fun b => b.transaction_id == some "ABC123")).length = 2
    ∧ mpesaOnce.schools.map (fun s => s.next_payment_date) = [some (addMonthsJs 1 0)]
    ∧ mpesaTwice.schools.map (fun s => s.next_payment_date) = [some (addMonthsJs 1 1000)]
    ∧ addMonthsJs 1 0 ≠ addMonthsJs 1 1000 := by
  refine ⟨by decide, by decide, by decide, by decide⟩

/-- C4: the claim says approving a billing event activates the tenant with
plan, capacity and dates set.  The billing CHECK constraint only admits
`plan_type` values `monthly`/`yearly`, while the schools CHECK only admits
`small`/`medium`/`large`; `approveSubscription` copies the billing plan
string into `schools.plan_type`, so for every schema-valid pending request
the billing row is marked `approved` but the schools update is rejected by
the CHECK constraint and no subscription field changes; the composed plan
keys (`small-monthly`, ...) of the manual request path are themselves
rejected at insert time. -/
theorem approve_billing_check_violation :
    billingRowOk c4Billing = true
    ∧ (approveSubscription c4Db 9 1 "monthly" 0).2 = some .checkViolation
    ∧ (approveSubscription c4Db 9 1 "monthly" 0).1.billing.map (fun b => b.status)
        = ["approved"]
    ∧ (approveSubscription c4Db 9 1 "monthly" 0).1.schools = c4Db.schools
    ∧ (c4Db.schools.map (fun s => s.subscription_status)) = ["trial"]
    ∧ requestSubscription c4Db 10 1 "small-monthly" 1000 0 = .error .checkViolation := by
  refine ⟨by decide, by decide, by decide, by decide, by decide, by rfl⟩

/-- C5 counterexample: receipt numbers come from the single global
`receipt_sequence`, which is never reset at a year boundary.  After one
payment in 2025, the first payment created in calendar year 2026 receives
`RCP-2026-000002`, not `RCP-2026-000001` as the claimed per-year sequence
requires. -/
theorem receipt_sequence_not_per_year :
    c5Trace.toOption.map (fun d => d.payments.map (fun p => p.receipt_number)) =
      some [some "RCP-2025-000001", some "RCP-2026-000002", some "RCP-2026-000003"]
    ∧ ("RCP-2026-000002" : String) ≠ "RCP-2026-000001" := by
  refine ⟨by decide, by decide⟩

/-- C5 (amended): receipt numbers are drawn from one global monotonic
sequence: a batch of payments inserted without client-supplied receipt
numbers, after `seq` values have been consumed, is numbered
`RCP-<year>-<lpad6 (seq+1)> … <lpad6 (seq+n)>` in creation order — so from
a fresh store, n payments in one year get `000001 … n` — the numbers are
pairwise distinct (for sequence values up to 999999), and editing a
payment's amount, method or notes never changes any receipt number. -/
theorem receipt_numbering_global_sequence (db : Db) (year : Nat) (ps : List Payment)
    (hnone : ∀ p ∈ ps, p.receipt_number = none)
    (hfresh : ∀ q ∈ db.payments, ∀ k, db.receipt_sequence < k →
      k ≤ db.receipt_sequence + ps.length →
      q.receipt_number ≠ some (receipt_number_string year k))
    (hbound : db.receipt_sequence + ps.length ≤ 999999) :
    dbInsertPayments db year ps =
      .ok { db with payments := db.payments ++ assignReceipts db.receipt_sequence year ps,
                    receipt_sequence := db.receipt_sequence + ps.length }
    ∧ (assignReceipts db.receipt_sequence year ps).Pairwise
        (fun p q => p.receipt_number ≠ q.receipt_number)
    ∧ (∀ (d : Db) (pid : Nat) (amount : Int) (method : String) (notes : Option String),
        (dbUpdatePaymentFields d pid amount method notes).payments.map
            (fun q => q.receipt_number)
          = d.payments.map (fun q => q.receipt_number)) := by
  refine ⟨dbInsertPayments_assign ps db year hnone hfresh hbound,
    assignReceipts_pairwise ps db.receipt_sequence hbound, ?_⟩
  intro d pid amount method notes
  simp only [dbUpdatePaymentFields, List.map_map]
  refine List.map_congr_left ?_
  intro q _
  by_cases h : (q.id == pid) = true <;> simp [Function.comp, h]

/-- Witness for C5: from a fresh store, two receipt-less payments inserted
in 2026 get the first two sequence values. -/
theorem receipt_numbering_global_sequence_witness :
    dbInsertPayments sampleDb 2026 [basePayment, { basePayment with id := 71 }] =
      .ok { sampleDb with
              payments := sampleDb.payments ++
                assignReceipts sampleDb.receipt_sequence 2026
                  [basePayment, { basePayment with id := 71 }],
              receipt_sequence := sampleDb.receipt_sequence + 2 } := by
  have h := (receipt_numbering_global_sequence sampleDb 2026
    [basePayment, { basePayment with id := 71 }]
    (by decide)
    (by intro q hq; simp [sampleDb] at hq)
    (by decide)).1
  simpa using h

/-- C6: capacity gate.  Creating a student when the tenant's fetched
student count has reached `maxStudents` is rejected with
`capacityExceeded`; with one fewer student the same creation succeeds
(inserting the form's row through the policy and triggers); and edits of
existing students are never capacity-checked. -/
theorem capacity_gate
    (db : Db) (uid sid newId : Nat) (sub : SubscriptionStatus) (form : StudentForm)
    (editingTarget : Student) (studentsFull studentsFree : List Student) (now : Time)
    (hfull : sub.maxStudents ≤ (studentsFull.length : Int))
    (hfree : (studentsFree.length : Int) < sub.maxStudents)
    (hfields : (form.admission_no == "" || form.full_name == "") = false)
    (hres : get_user_school_id db uid = some sid)
    (hnodup : db.students.any (fun t => sqlEq t.school_id (some sid)
        && t.admission_no == form.admission_no) = false) :
    handleSubmit db uid none (some sub) (some sid) studentsFull form newId now
      = .error .capacityExceeded
    ∧ handleSubmit db uid none (some sub) (some sid) studentsFree form newId now
      = .ok { db with students := db.students ++
          [update_student_fee db (newStudentRecord form sid newId now)] }
    ∧ ∀ students, handleSubmit db uid (some editingTarget) (some sub) (some sid)
        students form newId now ≠ .error .capacityExceeded := by
  have hpol : students_rls db uid (newStudentRecord form sid newId now) = true := by
    unfold students_rls newStudentRecord
    rw [hres]
    show (sid == sid) = true
    simp
  have hins : dbInsertStudent db (newStudentRecord form sid newId now) =
      .ok { db with students := db.students ++
        [update_student_fee db (newStudentRecord form sid newId now)] } := by
    have hcond : db.students.any (fun t =>
        sqlEq t.school_id (update_student_fee db (newStudentRecord form sid newId now)).school_id
        && t.admission_no == (update_student_fee db (newStudentRecord form sid newId now)).admission_no)
        = false := by
      rw [update_student_fee_school_id, update_student_fee_admission_no]
      exact hnodup
    simp only [dbInsertStudent]
    rw [hcond]
    simp
  refine ⟨?_, ?_, ?_⟩
  · simp [handleSubmit, hfields, hfull]
  · have hnotfull : ¬ sub.maxStudents ≤ (studentsFree.length : Int) := by omega
    simp [handleSubmit, hfields, hnotfull, rlsInsertStudent, hpol, hins, Except.mapError]
  · intro students
    cases hru : rlsUpdateStudent db uid editingTarget.id (fun s =>
        { s with admission_no := form.admission_no
                 full_name := form.full_name
                 parent_name := strOrNull form.parent_name
                 class_id := form.class_id
                 parent_contact := strOrNull form.parent_contact }) now with
    | ok d => simp [handleSubmit, hfields, hru, Except.mapError]
    | error e => simp [handleSubmit, hfields, hru, Except.mapError]

/-- Witness for C6: a tenant with capacity 2 and two students fetched
rejects a creation; with one student it succeeds. -/
theorem capacity_gate_witness :
    handleSubmit sampleDb 1 none (some capSub) (some 1) [capStudentA, capStudentB]
        capForm 102 0 = .error .capacityExceeded
    ∧ handleSubmit sampleDb 1 none (some capSub) (some 1) [capStudentA]
        capForm 102 0 = .ok { sampleDb with students := sampleDb.students ++
          [update_student_fee sampleDb (newStudentRecord capForm 1 102 0)] } := by
  have h := capacity_gate sampleDb 1 1 102 capSub capForm capStudentA
    [capStudentA, capStudentB] [capStudentA] 0
    (by decide) (by decide) (by decide) rfl (by decide)
  exact ⟨h.1, h.2.1⟩

/-- C7: rejecting a billing request only rewrites that request's `status`
to `rejected`; the schools table — and with it every tenant's
`subscription_status`, `plan_type`, `max_students` and payment dates —
and all other tables are untouched. -/
theorem rejection_is_noop (db : Db) (reqId : Nat)
    (h : ∀ b ∈ db.billing, b.id = reqId →
      b.school_id.isSome = true ∧ b.amount.isSome = true ∧
      (b.plan_type = "monthly" ∨ b.plan_type = "yearly")) :
    rejectSubscription db reqId = .ok { db with billing := db.billing.map (fun b =>
        if b.id == reqId then { b with status := "rejected" } else b) }
    ∧ ∀ db', rejectSubscription db reqId = .ok db' →
        db'.schools = db.schools ∧ db'.students = db.students
        ∧ db'.payments = db.payments ∧ db'.fee_structures = db.fee_structures := by
  have hcond : db.billing.all (fun b => !(b.id == reqId)
      || billingRowOk { b with status := "rejected" }) = true := by
    rw [List.all_eq_true]
    intro b hb
    by_cases hid : b.id = reqId
    · obtain ⟨h1, h2, h3⟩ := h b hb hid
      rcases h3 with h3 | h3 <;>
        simp [billingRowOk, h1, h2, h3]
    · have : (b.id == reqId) = false := beq_eq_false_iff_ne.2 hid
      simp [this]
  have hmain : rejectSubscription db reqId = .ok { db with billing := db.billing.map (fun b =>
      if b.id == reqId then { b with status := "rejected" } else b) } := by
    unfold rejectSubscription dbUpdateBilling
    rw [hcond]
    simp
  refine ⟨hmain, ?_⟩
  intro db' hdb'
  rw [hmain] at hdb'
  cases hdb'
  exact ⟨rfl, rfl, rfl, rfl⟩

/-- Witness for C7: rejecting the pending request in `c4Db` flips only its
status. -/
theorem rejection_is_noop_witness :
    rejectSubscription c4Db 9 = .ok { c4Db with billing := c4Db.billing.map (fun b =>
        if b.id == 9 then { b with status := "rejected" } else b) } :=
  (rejection_is_noop c4Db 9 (by decide)).1

/-- C8: fee snapshot.  Inserting a student assigned to fee structure `x`
snapshots `x`'s current `fee_amount` into `total_fee` (the BEFORE INSERT
trigger); changing any fee structure's `fee_amount` later touches no
student row; and an update writing a student's class reference recomputes
`total_fee` from the newly referenced structure's current amount. -/
theorem fee_snapshot
    (db : Db) (s0 : Student) (x y sid : Nat) (fsX fsY : FeeStructure) (st : Student)
    (now2 : Time)
    (hx : db.fee_structures.find? (fun f => f.id == x) = some fsX)
    (hs0 : s0.class_id = some x)
    (hins : db.students.any (fun t => sqlEq t.school_id s0.school_id
        && t.admission_no == s0.admission_no) = false)
    (hy : db.fee_structures.find? (fun f => f.id == y) = some fsY)
    (hst : db.students.find? (fun t => t.id == sid) = some st)
    (hupd : db.students.any (fun t => !(t.id == sid) && sqlEq t.school_id st.school_id
        && t.admission_no == st.admission_no) = false) :
    dbInsertStudent db s0 = .ok { db with students := db.students
        ++ [{ s0 with total_fee := some fsX.fee_amount }] }
    ∧ (∀ (d : Db) (fid : Nat) (amt : Int) (tm : Time),
        (dbUpdateFeeAmount d fid amt tm).students = d.students)
    ∧ dbUpdateStudent db sid (fun t => { t with class_id := some y }) now2
        = .ok { db with students := db.students.map (fun t => if t.id == sid
            then { st with class_id := some y, total_fee := some fsY.fee_amount,
                           updated_at := now2 } else t) } := by
  have hfee0 : update_student_fee db s0 = { s0 with total_fee := some fsX.fee_amount } := by
    simp [update_student_fee, hs0, hx]
  refine ⟨?_, ?_, ?_⟩
  · have hcond : db.students.any (fun t =>
        sqlEq t.school_id (update_student_fee db s0).school_id
        && t.admission_no == (update_student_fee db s0).admission_no) = false := by
      rw [update_student_fee_school_id, update_student_fee_admission_no]
      exact hins
    simp only [dbInsertStudent]
    rw [hcond]
    simp [hfee0]
  · intro d fid amt tm
    simp [dbUpdateFeeAmount]
  · have hfee1 : update_student_fee db { st with class_id := some y }
        = { st with class_id := some y, total_fee := some fsY.fee_amount } := by
      simp [update_student_fee, hy]
    simp only [dbUpdateStudent, hst, hfee1]
    rw [show (db.students.any (fun t => !(t.id == sid)
        && sqlEq t.school_id st.school_id && t.admission_no == st.admission_no)) = false
      from hupd]
    simp

/-- Witness for C8: in `feeDb`, inserting a student with class 5 (fee 500)
snapshots 500; reassigning student 100 to class 6 (fee 700) recomputes. -/
theorem fee_snapshot_witness :
    dbInsertStudent feeDb { capStudentB with class_id := some 5 }
      = .ok { feeDb with students := feeDb.students
          ++ [{ { capStudentB with class_id := some 5 } with total_fee := some feeX.fee_amount }] }
    ∧ dbUpdateStudent feeDb 100 (fun t => { t with class_id := some 6 }) 5
      = .ok { feeDb with students := feeDb.students.map (fun t => if t.id == 100
          then { feeStudent with class_id := some 6, total_fee := some feeY.fee_amount, updated_at := 5 }
          else t) } := by
  have h := fee_snapshot feeDb { capStudentB with class_id := some 5 } 5 6 100
    feeX feeY feeStudent 5 (by decide) rfl (by decide) (by decide) (by decide) (by decide)
  exact ⟨h.1, h.2.2⟩

/-- C9: admission-number uniqueness is the composite unique index on
`(school_id, admission_no)`: a second student with an existing tenant's
admission number fails with a unique violation, while the same admission
number under a different tenant inserts successfully. -/
theorem admission_no_unique_per_tenant
    (db : Db) (t s1 s2 : Student) (A B : Nat)
    (ht : t ∈ db.students) (htA : t.school_id = some A)
    (hs1A : s1.school_id = some A) (hs1adm : s1.admission_no = t.admission_no)
    (hs2B : s2.school_id = some B) (_hs2adm : s2.admission_no = t.admission_no)
    (_hAB : A ≠ B)
    (hfree : db.students.any (fun u => sqlEq u.school_id (some B)
        && u.admission_no == s2.admission_no) = false) :
    dbInsertStudent db s1 = .error .uniqueViolation
    ∧ dbInsertStudent db s2 = .ok { db with students := db.students
        ++ [update_student_fee db s2] } := by
  constructor
  · have hhit : db.students.any (fun u =>
        sqlEq u.school_id (update_student_fee db s1).school_id
        && u.admission_no == (update_student_fee db s1).admission_no) = true := by
      rw [update_student_fee_school_id, update_student_fee_admission_no]
      rw [List.any_eq_true]
      refine ⟨t, ht, ?_⟩
      rw [htA, hs1A, hs1adm]
      simp [sqlEq]
    simp only [dbInsertStudent]
    rw [hhit]
    simp
  · have hmiss : db.students.any (fun u =>
        sqlEq u.school_id (update_student_fee db s2).school_id
        && u.admission_no == (update_student_fee db s2).admission_no) = false := by
      rw [update_student_fee_school_id, update_student_fee_admission_no, hs2B]
      exact hfree
    simp only [dbInsertStudent]
    rw [hmiss]
    simp

/-- Witness for C9: admission number 001 collides inside tenant 10 but
inserts under tenant 20. -/
theorem admission_no_unique_per_tenant_witness :
    dbInsertStudent admDb admS1 = .error .uniqueViolation
    ∧ dbInsertStudent admDb admS2 = .ok { admDb with students := admDb.students
        ++ [update_student_fee admDb admS2] } :=
  admission_no_unique_per_tenant admDb admStudentT admS1 admS2 10 20
    (by decide) rfl rfl rfl rfl rfl (by decide) (by decide)

/-- C10 counterexample: the explicit deactivation does not leave every
other school field unchanged — the schools BEFORE UPDATE trigger bumps
`updated_at` (from 0 to the update time 5 here), so the operation writes
three fields, not two. -/
theorem deactivation_bumps_updated_at :
    deactivateSubscription c10Db 1 5 = .ok { c10Db with schools :=
      [{ c10School with subscription_status := "expired", next_payment_date := none, updated_at := 5 }] }
    ∧ c10School.updated_at = 0 ∧ ((5 : Int)) ≠ 0 := by
  refine ⟨by rfl, rfl, by decide⟩

/-- C10 (amended): deactivation rewrites exactly `subscription_status` to
`expired`, `next_payment_date` to null and — via the update trigger —
`updated_at` to the update time, on the targeted school only; every other
school field (plan, capacity, trial window, last payment, target) and
every other table (students, payments, fee structures, billing) is
untouched, so plan and capacity survive a deactivate/reactivate cycle. -/
theorem deactivation_frame (db : Db) (schId : Nat) (now : Time)
    (h : ∀ s ∈ db.schools, s.id = schId →
      s.plan_type = "small" ∨ s.plan_type = "medium" ∨ s.plan_type = "large") :
    deactivateSubscription db schId now = .ok { db with schools := db.schools.map (fun s =>
      if s.id == schId
      then { s with subscription_status := "expired", next_payment_date := none, updated_at := now }
      else s) } := by
  have hcond : db.schools.all (fun s => !(s.id == schId)
      || schoolRowOk { s with subscription_status := "expired", next_payment_date := none, updated_at := now }) = true := by
    rw [List.all_eq_true]
    intro s hs
    by_cases hid : s.id = schId
    · rcases h s hs hid with hp | hp | hp <;>
        simp [schoolRowOk, hp]
    · have : (s.id == schId) = false := beq_eq_false_iff_ne.2 hid
      simp [this]
  unfold deactivateSubscription dbUpdateSchools
  split
  · rfl
  · rename_i hcontra
    exact absurd hcond hcontra

/-- Witness for C10: deactivating school 1 in `c10Db` performs exactly the
three-field rewrite. -/
theorem deactivation_frame_witness :
    deactivateSubscription c10Db 1 5 = .ok { c10Db with schools := c10Db.schools.map (fun s =>
      if s.id == 1
      then { s with subscription_status := "expired", next_payment_date := none, updated_at := 5 }
      else s) } :=
  deactivation_frame c10Db 1 5 (by decide)

end MyFee
